import Mathlib

/-!
Shallow embedding of the TimeKeepingSpotify scheduler core
(`src/js/scheduler.js` and `src/js/spotify-api.js`).

Modelling conventions:
* JavaScript values that may be `undefined`/`null` are modelled as `Option`.
* JavaScript truthiness of a number is `≠ 0`, of a string is `≠ ""`.
* The remote Spotify API is modelled by an `ApiEnv` record saying, for one
  round of calls, what `getPlaybackState` returns and whether `pause`,
  `setVolume` and `play` succeed.  `getPlaybackState` itself never throws in
  the source (it catches internally and returns `null`), so its result is an
  `Option PlaybackState`.
* Commands sent to the remote carry the values that go over the wire: in
  particular `setVolume` carries the clamped `volume_percent` computed in
  `spotify-api.js`.
-/

namespace TimeKeepingSpotify

/-- A playback context (album/playlist) as reported by the player endpoint. -/
structure PlaybackContext where
  uri : String
deriving DecidableEq

/-- The currently loaded track as reported by the player endpoint. -/
structure PlaybackItem where
  uri : String
  duration_ms : Nat
deriving DecidableEq

/-- The device part of a playback-state response.  `volume_percent` is
`none` when the field is absent. -/
structure Device where
  volume_percent : Option Int
deriving DecidableEq

/-- A playback-state response from `getPlaybackState`.  `progress_ms` is
`none` when the service reports `null`; in JavaScript comparisons `null`
coerces to `0`. -/
structure PlaybackState where
  is_playing : Bool
  item : Option PlaybackItem
  progress_ms : Option Nat
  context : Option PlaybackContext
  device : Option Device
deriving DecidableEq

/-- A schedule record as stored by the scheduler module. -/
structure Schedule where
  id : String
  time : String
  trackUri : String
  trackName : String
  artistName : String
  volume : Int
  restorePlayback : Bool
  «repeat» : Bool
  triggered : Bool
  enabled : Bool
  playbackDuration : Option Nat
  trackDuration : Option Nat
  lastTriggeredDate : Option String
deriving DecidableEq

/-- The body of a `PUT /me/player/play` request, as assembled by
`SpotifyAPI.play` (`spotify-api.js`). -/
structure PlayBody where
  context_uri : Option String
  uris : Option (List String)
  position_ms : Option Nat
deriving DecidableEq

/-- The options object handed to `SpotifyAPI.play`. -/
structure PlayOptions where
  contextUri : Option String
  uris : Option (List String)
  positionMs : Option Nat
deriving DecidableEq

/-- `SpotifyAPI.play`: the body includes `context_uri` only when the option
is truthy (a non-empty string), `uris` whenever the array is present, and
`position_ms` whenever the option is not `undefined`. -/
def play_body (options : PlayOptions) : PlayBody :=
  { context_uri :=
      match options.contextUri with
      | some s => if s = "" then none else some s
      | none => none
    uris := options.uris
    position_ms := options.positionMs }

/-- `SpotifyAPI.setVolume`: the `volume_percent` query parameter is
`Math.min(100, Math.max(0, volumePercent))`. -/
def setVolume_percent (volumePercent : Int) : Int :=
  min 100 (max 0 volumePercent)

/-- A state-changing command sent to the remote player. -/
inductive Command
  | pause
  | setVolume (volume_percent : Int)
  | play (body : PlayBody)
deriving DecidableEq

/-- A user-visible notification emitted by the scheduler. -/
inductive Notification
  | nowPlaying (trackName : String)
  | triggerError
  | restoredPlayback
  | restoreFailed
deriving DecidableEq

/-- One round of remote-API behaviour: the playback state returned by
`getPlaybackState` (with `none` covering both "no active device" and an
internally caught error), and success of the three commands. -/
structure ApiEnv where
  playbackState : Option PlaybackState
  pauseOk : Bool
  setVolumeOk : Bool
  playOk : Bool
deriving DecidableEq

/-! ## ScheduleStore operations (`scheduler.js`) -/

/-- JavaScript `x || d` for an optional string: an absent or empty string
falls back to the default. -/
def jsOrString : Option String → String → String
  | some s, d => if s = "" then d else s
  | none, d => d

/-- JavaScript `x || d` for an optional number: an absent or zero value
falls back to the default. -/
def jsOrInt : Option Int → Int → Int
  | some v, d => if v = 0 then d else v
  | none, d => d

/-- JavaScript `x || null` for an optional number: zero collapses to null. -/
def jsOrNull : Option Nat → Option Nat
  | some n => if n = 0 then none else some n
  | none => none

/-- JavaScript `x || false` for an optional boolean. -/
def jsOrFalse : Option Bool → Bool
  | some b => b
  | none => false

/-- The fields a caller may supply to `addSchedule`; absent fields are
`none`. -/
structure ScheduleInput where
  time : String
  trackUri : String
  trackName : Option String
  artistName : Option String
  volume : Option Int
  restorePlayback : Option Bool
  «repeat» : Option Bool
  playbackDuration : Option Nat
  trackDuration : Option Nat
deriving DecidableEq

/-- The record built by `addSchedule` (`scheduler.js` lines 72–90);
`now` is the `Date.now()` timestamp used for the generated id. -/
def newScheduleFrom (now : Nat) (input : ScheduleInput) : Schedule :=
  { id := toString now
    time := input.time
    trackUri := input.trackUri
    trackName := jsOrString input.trackName "Unknown Track"
    artistName := jsOrString input.artistName "Unknown Artist"
    volume := jsOrInt input.volume 50
    restorePlayback := jsOrFalse input.restorePlayback
    «repeat» := input.«repeat» != some false
    triggered := false
    enabled := true
    playbackDuration := jsOrNull input.playbackDuration
    trackDuration := jsOrNull input.trackDuration
    lastTriggeredDate := none }

/-- `addSchedule`: pushes the new record onto the store and returns it. -/
def addSchedule (now : Nat) (input : ScheduleInput) (schedules : List Schedule) :
    List Schedule × Schedule :=
  (schedules ++ [newScheduleFrom now input], newScheduleFrom now input)

/-- `getSchedules`: returns a snapshot copy of the store. -/
def getSchedules (schedules : List Schedule) : List Schedule :=
  schedules

/-- `removeSchedule`: drops every record whose id matches. -/
def removeSchedule (scheduleId : String) (schedules : List Schedule) : List Schedule :=
  schedules.filter (fun s => s.id != scheduleId)

/-- The per-record reset applied by `loadSchedules` on startup: repeating
records whose `lastTriggeredDate` is not today get `triggered` cleared. -/
def loadResetOne (today : String) (s : Schedule) : Schedule :=
  if s.«repeat» then
    if s.lastTriggeredDate ≠ some today then { s with triggered := false } else s
  else s

/-- `loadSchedules` (pure core, after JSON parsing succeeds): drop fired
one-shots, then reset repeating records for a new day. -/
def loadSchedules (today : String) (stored : List Schedule) : List Schedule :=
  (stored.filter (fun s => !s.triggered || s.«repeat»)).map (loadResetOne today)

/-- `resetDailySchedules`: unconditionally clears `triggered` on repeating
records.  Exposed by the module but never invoked by the application. -/
def resetDailySchedules (schedules : List Schedule) : List Schedule :=
  schedules.map (fun s => if s.«repeat» then { s with triggered := false } else s)

/-! ## TriggerClock (`checkSchedules`) -/

/-- A wall-clock instant, as read off `new Date()`. -/
structure ClockTime where
  hours : Nat
  minutes : Nat
  seconds : Nat
deriving DecidableEq

/-- `String(n).padStart(2, ...)` with the zero digit as pad. -/
def pad2 (n : Nat) : String :=
  if n < 10 then "0" ++ toString n else toString n

/-- The `currentTime` string built in `checkSchedules`. -/
def currentTimeString (now : ClockTime) : String :=
  pad2 now.hours ++ ":" ++ pad2 now.minutes

/-- The guard of `checkSchedules` (line 151): enabled, not yet triggered,
time string matches, and within the first two seconds of the minute. -/
def shouldFire (s : Schedule) (now : ClockTime) : Bool :=
  s.enabled && !s.triggered && s.time == currentTimeString now
    && decide (now.seconds < 2)

/-- The schedules fired by one clock tick. -/
def firedOnTick (schedules : List Schedule) (now : ClockTime) : List Schedule :=
  schedules.filter (fun s => shouldFire s now)

/-! ## TriggerExecutor (`triggerSchedule`) -/

/-- Which monitoring strategy `triggerSchedule` starts after a successful
fire. -/
inductive MonitorChoice
  | durationCapped
  | trackEnd
  | completion
deriving DecidableEq

/-- The guard on line 203: `playbackDuration && trackDuration &&
playbackDuration < trackDuration` (JavaScript truthiness: zero is falsy). -/
def durationCapApplies (s : Schedule) : Bool :=
  match s.playbackDuration, s.trackDuration with
  | some p, some t => p != 0 && t != 0 && decide (p < t)
  | _, _ => false

/-- The strategy selection on lines 203–211. -/
def selectMonitor (s : Schedule) (savedPlaybackState : Option PlaybackState) :
    MonitorChoice :=
  if durationCapApplies s then MonitorChoice.durationCapped
  else if s.restorePlayback && savedPlaybackState.isSome then MonitorChoice.trackEnd
  else MonitorChoice.completion

/-- Everything one call of `triggerSchedule` does: the (possibly updated)
schedule record, the snapshot taken, the commands attempted in order, the
notifications shown, the value left in the active-schedule slot, the
monitoring strategy started, and whether `saveSchedules` ran. -/
structure TriggerOutcome where
  schedule : Schedule
  savedPlaybackState : Option PlaybackState
  commands : List Command
  notifications : List Notification
  active : Option Schedule
  monitor : Option MonitorChoice
  storeSaved : Bool
deriving DecidableEq

/-- The options `triggerSchedule` hands to `SpotifyAPI.play`:
`{ uris: [schedule.trackUri] }`. -/
def triggerPlayOptions (trackUri : String) : PlayOptions :=
  { contextUri := none, uris := some [trackUri], positionMs := none }

/-- `triggerSchedule` (lines 161–219).  The snapshot is taken only when
`restorePlayback` is set; `pause` is attempted with failure ignored; then
`setVolume` and `play` run, and a failure of either jumps to the catch
block which emits an error notification and clears the active slot. -/
def triggerSchedule (env : ApiEnv) (today : String) (s : Schedule) : TriggerOutcome :=
  let savedPlaybackState := if s.restorePlayback then env.playbackState else none
  if env.setVolumeOk then
    if env.playOk then
      let s2 := { s with triggered := true, lastTriggeredDate := some today }
      { schedule := s2
        savedPlaybackState := savedPlaybackState
        commands := [Command.pause, Command.setVolume (setVolume_percent s.volume),
          Command.play (play_body (triggerPlayOptions s.trackUri))]
        notifications := [Notification.nowPlaying s.trackName]
        active := some s2
        monitor := some (selectMonitor s2 savedPlaybackState)
        storeSaved := true }
    else
      { schedule := s
        savedPlaybackState := savedPlaybackState
        commands := [Command.pause, Command.setVolume (setVolume_percent s.volume),
          Command.play (play_body (triggerPlayOptions s.trackUri))]
        notifications := [Notification.triggerError]
        active := none
        monitor := none
        storeSaved := false }
  else
    { schedule := s
      savedPlaybackState := savedPlaybackState
      commands := [Command.pause, Command.setVolume (setVolume_percent s.volume)]
      notifications := [Notification.triggerError]
      active := none
      monitor := none
      storeSaved := false }

/-- The effect of one `checkSchedules` tick on the store: every schedule
passing the guard goes through `triggerSchedule`, the rest are untouched. -/
def checkSchedules (env : ApiEnv) (today : String) (now : ClockTime)
    (schedules : List Schedule) : List Schedule :=
  schedules.map (fun s =>
    if shouldFire s now then (triggerSchedule env today s).schedule else s)

/-- A sequence of clock ticks, each with its own remote behaviour, date
string and wall-clock reading. -/
def runTicks : List (ApiEnv × String × ClockTime) → List Schedule → List Schedule
  | [], schedules => schedules
  | (env, today, now) :: rest, schedules =>
      runTicks rest (checkSchedules env today now schedules)

/-- `triggerNow` (lines 432–438) acting on the store: find the first record
with the given id, clear its `triggered` flag, and run the full fire
sequence on it; an unknown id changes nothing. -/
def triggerNowStore (env : ApiEnv) (today : String) (scheduleId : String) :
    List Schedule → List Schedule × Option TriggerOutcome
  | [] => ([], none)
  | s :: rest =>
      if s.id = scheduleId then
        let outcome := triggerSchedule env today { s with triggered := false }
        (outcome.schedule :: rest, some outcome)
      else
        let result := triggerNowStore env today scheduleId rest
        (s :: result.1, result.2)

/-! ## RestoreAgent (`restorePreviousPlayback`) -/

/-- What one call of `restorePreviousPlayback` does. -/
structure RestoreOutcome where
  commands : List Command
  notifications : List Notification
deriving DecidableEq

/-- The optional volume-restore command: issued when
`prevState.device?.volume_percent !== undefined`. -/
def restoreVolumeCommand (prevState : PlaybackState) : Option Command :=
  match prevState.device with
  | some d =>
      match d.volume_percent with
      | some v => some (Command.setVolume (setVolume_percent v))
      | none => none
  | none => none

/-- `prevState.progress_ms || 0`, the position handed to the play call of the restore. -/
def restorePositionMs (prevState : PlaybackState) : Nat :=
  prevState.progress_ms.getD 0

/-- The options of the context-branch play call of the restore:
`{ contextUri, positionMs }`. -/
def restoreContextOptions (contextUri : String) (positionMs : Nat) : PlayOptions :=
  { contextUri := some contextUri, uris := none, positionMs := some positionMs }

/-- The options of the single-track play call of the restore:
`{ uris: [uri], positionMs }`. -/
def restoreTrackOptions (uri : String) (positionMs : Nat) : PlayOptions :=
  { contextUri := none, uris := some [uri], positionMs := some positionMs }

/-- The track-branch of the restore: `else if (prevState.item?.uri)`. -/
def restoreItemPlay (prevState : PlaybackState) : Option Command :=
  match prevState.item with
  | some it =>
      if it.uri != "" then
        some (Command.play (play_body (restoreTrackOptions it.uri (restorePositionMs prevState))))
      else none
  | none => none

/-- The play command the restore issues: the context branch when
`prevState.context?.uri` is truthy, otherwise the single-track branch,
otherwise none.  `progress_ms || 0` supplies the position. -/
def restorePlayCommand (prevState : PlaybackState) : Option Command :=
  match prevState.context with
  | some c =>
      if c.uri != "" then
        some (Command.play (play_body (restoreContextOptions c.uri (restorePositionMs prevState))))
      else restoreItemPlay prevState
  | none => restoreItemPlay prevState

/-- `restorePreviousPlayback` (lines 371–402): restore the volume if the
snapshot had one, then issue the context or single-track play; a failing
command aborts the rest and the catch block shows an error notification,
otherwise the "Restored previous playback" notification is shown. -/
def restorePreviousPlayback (env : ApiEnv) (prevState : PlaybackState) : RestoreOutcome :=
  match restoreVolumeCommand prevState with
  | some c =>
      if env.setVolumeOk then
        match restorePlayCommand prevState with
        | some p =>
            if env.playOk then
              { commands := [c, p], notifications := [Notification.restoredPlayback] }
            else
              { commands := [c, p], notifications := [Notification.restoreFailed] }
        | none => { commands := [c], notifications := [Notification.restoredPlayback] }
      else { commands := [c], notifications := [Notification.restoreFailed] }
  | none =>
      match restorePlayCommand prevState with
      | some p =>
          if env.playOk then
            { commands := [p], notifications := [Notification.restoredPlayback] }
          else
            { commands := [p], notifications := [Notification.restoreFailed] }
      | none => { commands := [], notifications := [Notification.restoredPlayback] }

/-! ## CompletionMonitor (the three polling loops)

Each loop body is modelled as a per-tick function.  The input of a tick is
either the result of polling `getPlaybackState` (which in this codebase
never throws — its errors come back as `null`), or `raise`, an exception
thrown inside the tick body and handled by the catch block of the loop. -/

def MAX_TRACK_MONITOR_SECONDS : Nat := 600

/-- What drives one iteration of a monitor loop. -/
inductive TickInput
  | poll (st : Option PlaybackState)
  | raise
deriving DecidableEq

/-- The per-tick observable outcome of `monitorTrackEnd` and
`monitorForCompletion`: whether the tick invoked the restore, and whether
it ended the loop. -/
structure MonTick where
  restores : Bool
  stop : Bool
deriving DecidableEq

/-- One iteration of `monitorTrackEnd` (lines 284–329), after `checkCount`
has been incremented to the given value.  A `null` state or a stopped
player triggers the restore; a playing, non-empty, different track
abandons; progress within one second of the duration triggers the restore;
the catch block logs and lets the interval continue. -/
def monitorTrackEndTick (trackUri : String) (checkCount : Nat) (input : TickInput) :
    MonTick :=
  if MAX_TRACK_MONITOR_SECONDS < checkCount then { restores := false, stop := true }
  else
    match input with
    | TickInput.raise => { restores := false, stop := false }
    | TickInput.poll none => { restores := true, stop := true }
    | TickInput.poll (some currentState) =>
        if !currentState.is_playing then { restores := true, stop := true }
        else
          match currentState.item with
          | some it =>
              if it.uri != "" && it.uri != trackUri then { restores := false, stop := true }
              else if ((currentState.progress_ms.getD 0 : Int) ≥ (it.duration_ms : Int) - 1000) then
                { restores := true, stop := true }
              else { restores := false, stop := false }
          | none => { restores := false, stop := false }

/-- The run of `monitorTrackEnd` over a list of tick inputs, starting from
a given `checkCount`: the list of per-tick outcomes of the iterations that
actually execute (the loop stops at the first tick with `stop`). -/
def monitorTrackEndRun (trackUri : String) : Nat → List TickInput → List MonTick
  | _, [] => []
  | checkCount, input :: rest =>
      let r := monitorTrackEndTick trackUri (checkCount + 1) input
      r :: (if r.stop then [] else monitorTrackEndRun trackUri (checkCount + 1) rest)

/-- One iteration of `monitorForCompletion` (lines 335–365): the loop ends
as soon as the state is `null`, the player is stopped, or the loaded track
differs; it never restores; its catch block clears the interval. -/
def monitorForCompletionTick (trackUri : String) (checkCount : Nat) (input : TickInput) :
    MonTick :=
  if MAX_TRACK_MONITOR_SECONDS < checkCount then { restores := false, stop := true }
  else
    match input with
    | TickInput.raise => { restores := false, stop := true }
    | TickInput.poll none => { restores := false, stop := true }
    | TickInput.poll (some currentState) =>
        if !currentState.is_playing then { restores := false, stop := true }
        else
          match currentState.item with
          | some it =>
              if it.uri == trackUri then { restores := false, stop := false }
              else { restores := false, stop := true }
          | none => { restores := false, stop := true }

/-- The run of `monitorForCompletion` over a list of tick inputs. -/
def monitorForCompletionRun (trackUri : String) : Nat → List TickInput → List MonTick
  | _, [] => []
  | checkCount, input :: rest =>
      let r := monitorForCompletionTick trackUri (checkCount + 1) input
      r :: (if r.stop then [] else monitorForCompletionRun trackUri (checkCount + 1) rest)

/-- The input of one tick of `monitorPlaybackDuration`: the elapsed wall-clock
milliseconds since the trigger, whether the `pause` issued at the cap
succeeds, and the poll result (or an exception). -/
structure DurTick where
  elapsedMs : Nat
  pauseOk : Bool
  input : TickInput
deriving DecidableEq

/-- The per-tick observable outcome of `monitorPlaybackDuration`. -/
structure DurTickResult where
  pauses : Bool
  restores : Bool
  stop : Bool
deriving DecidableEq

/-- One iteration of `monitorPlaybackDuration` (lines 230–274).  Once the
elapsed time reaches the target the loop ends; it pauses (and, when
`restorePlayback` held and a snapshot exists and the pause succeeded,
restores) only if the fresh poll still shows the scheduled track.  Before
the cap, a `null` state or any track other than the scheduled one abandons
the loop.  The catch block clears the interval. -/
def monitorPlaybackDurationTick (trackUri : String) (restorePlayback : Bool)
    (savedSome : Bool) (targetMs : Nat) (t : DurTick) : DurTickResult :=
  match t.input with
  | TickInput.raise => { pauses := false, restores := false, stop := true }
  | TickInput.poll st =>
      if targetMs ≤ t.elapsedMs then
        match st with
        | some currentState =>
            match currentState.item with
            | some it =>
                if it.uri == trackUri then
                  { pauses := true
                    restores := t.pauseOk && restorePlayback && savedSome
                    stop := true }
                else { pauses := false, restores := false, stop := true }
            | none => { pauses := false, restores := false, stop := true }
        | none => { pauses := false, restores := false, stop := true }
      else
        match st with
        | some currentState =>
            match currentState.item with
            | some it =>
                if it.uri == trackUri then { pauses := false, restores := false, stop := false }
                else { pauses := false, restores := false, stop := true }
            | none => { pauses := false, restores := false, stop := true }
        | none => { pauses := false, restores := false, stop := true }

/-- The run of `monitorPlaybackDuration` over a list of tick inputs. -/
def monitorPlaybackDurationRun (trackUri : String) (restorePlayback : Bool)
    (savedSome : Bool) (targetMs : Nat) : List DurTick → List DurTickResult
  | [] => []
  | t :: rest =>
      let r := monitorPlaybackDurationTick trackUri restorePlayback savedSome targetMs t
      r :: (if r.stop then []
            else monitorPlaybackDurationRun trackUri restorePlayback savedSome targetMs rest)

/-- A poll that reports a playing track with a non-empty URI different
from the scheduled one — the observable form of "the user switched
tracks". -/
def reportsOtherPlaying (trackUri : String) (input : TickInput) : Bool :=
  match input with
  | TickInput.poll (some currentState) =>
      currentState.is_playing &&
        (match currentState.item with
         | some it => it.uri != "" && it.uri != trackUri
         | none => false)
  | _ => false

/-- The play bodies among a list of commands. -/
def playCommands : List Command → List PlayBody
  | [] => []
  | Command.play b :: rest => b :: playCommands rest
  | _ :: rest => playCommands rest

/-- Whether the snapshot field `context?.uri` is truthy. -/
def hasContextUri (prevState : PlaybackState) : Bool :=
  match prevState.context with
  | some c => c.uri != ""
  | none => false

/-- Whether the snapshot field `item?.uri` is truthy. -/
def hasItemUri (prevState : PlaybackState) : Bool :=
  match prevState.item with
  | some it => it.uri != ""
  | none => false

/-! ## Concrete fixtures used by witnesses and counterexamples -/

def baseSchedule : Schedule :=
  { id := "1700000000000", time := "07:00", trackUri := "t1", trackName := "Song"
    artistName := "Artist", volume := 80, restorePlayback := false, «repeat» := true
    triggered := false, enabled := true, playbackDuration := none, trackDuration := none
    lastTriggeredDate := none }

def envAllOk : ApiEnv :=
  { playbackState := none, pauseOk := true, setVolumeOk := true, playOk := true }

def envPlayFails : ApiEnv :=
  { playbackState := none, pauseOk := true, setVolumeOk := true, playOk := false }

/-- A schedule asking for restore, fired while `getPlaybackState` returned
`null`. -/
def scheduleRestoreNoSnapshot : Schedule :=
  { baseSchedule with restorePlayback := true }

/-- A schedule whose stored `playbackDuration` is the number `0` (possible
through `loadSchedules`, which accepts any parsed record). -/
def scheduleZeroDuration : Schedule :=
  { baseSchedule with playbackDuration := some 0, trackDuration := some 180 }

/-- A schedule that already fired yesterday. -/
def triggeredYesterday : Schedule :=
  { baseSchedule with triggered := true, lastTriggeredDate := some "Mon Jan 01 2024" }

/-- A poll showing a different track, paused. -/
def pausedOtherState : PlaybackState :=
  { is_playing := false, item := some { uri := "t2", duration_ms := 180000 }
    progress_ms := some 0, context := none, device := none }

/-- A poll showing a playing track with an empty URI. -/
def emptyUriPlayingState : PlaybackState :=
  { is_playing := true, item := some { uri := "", duration_ms := 500 }
    progress_ms := some 0, context := none, device := none }

/-- A poll showing the scheduled track `t1` playing normally. -/
def playingSchedState : PlaybackState :=
  { is_playing := true, item := some { uri := "t1", duration_ms := 180000 }
    progress_ms := some 5000, context := none, device := none }

/-- A snapshot that was playing from a playlist context. -/
def contextSnapshot : PlaybackState :=
  { is_playing := true, item := some { uri := "tPrev", duration_ms := 200000 }
    progress_ms := some 1234, context := some { uri := "ctx1" }, device := none }

/-- A fully working remote whose `getPlaybackState` reports the context
snapshot. -/
def envWithState : ApiEnv :=
  { playbackState := some contextSnapshot, pauseOk := true, setVolumeOk := true
    playOk := true }

/-- An input record that supplies the (falsy) volume `0`. -/
def zeroVolumeInput : ScheduleInput :=
  { time := "07:00", trackUri := "t1", trackName := some "X", artistName := none
    volume := some 0, restorePlayback := none, «repeat» := none
    playbackDuration := none, trackDuration := none }

/-- An input record that supplies an out-of-range volume. -/
def volume150Input : ScheduleInput :=
  { time := "07:00", trackUri := "t1", trackName := some "X", artistName := none
    volume := some 150, restorePlayback := none, «repeat» := none
    playbackDuration := none, trackDuration := none }

/-- A poll showing a different track, playing. -/
def otherPlayingState : PlaybackState :=
  { is_playing := true, item := some { uri := "t2", duration_ms := 180000 }
    progress_ms := some 0, context := none, device := none }

/-- A schedule with an out-of-range stored volume. -/
def schedule150 : Schedule :=
  { baseSchedule with volume := 150 }

/-- A disabled, already-triggered schedule with id "42". -/
def scheduleId42 : Schedule :=
  { baseSchedule with id := "42", enabled := false, triggered := true }

/-- A snapshot with a track but no context and no device volume. -/
def trackOnlySnapshot : PlaybackState :=
  { is_playing := true, item := some { uri := "tPrev", duration_ms := 200000 }
    progress_ms := some 4321, context := none, device := none }

/-- A snapshot with neither context nor track. -/
def idleSnapshot : PlaybackState :=
  { is_playing := false, item := none, progress_ms := none, context := none
    device := some { volume_percent := some 35 } }

/-! ## Helper lemmas -/

/-- The duration-cap guard holds exactly when both durations are present
and nonzero and the playback cap is strictly below the track duration. -/
theorem durationCapApplies_iff (s : Schedule) :
    durationCapApplies s = true ↔
      ∃ p t, s.playbackDuration = some p ∧ s.trackDuration = some t ∧ 0 < p ∧ p < t := by
  cases hpd : s.playbackDuration with
  | none => simp [durationCapApplies, hpd]
  | some p =>
      cases htd : s.trackDuration with
      | none => simp [durationCapApplies, hpd, htd]
      | some t =>
          simp only [durationCapApplies, hpd, htd, Bool.and_eq_true, bne_iff_ne, ne_eq,
            decide_eq_true_eq, Option.some.injEq]
          constructor
          · rintro ⟨⟨hp, ht⟩, hlt⟩
            exact ⟨p, t, rfl, rfl, Nat.pos_of_ne_zero hp, hlt⟩
          · rintro ⟨p', t', hp', ht', hpos, hlt⟩
            subst hp'; subst ht'
            exact ⟨⟨Nat.pos_iff_ne_zero.mp hpos, by omega⟩, hlt⟩

/-- A poll reporting a playing, non-empty, different track makes the
`monitorTrackEnd` body abandon the loop without restoring. -/
theorem monitorTrackEndTick_of_other_playing (trackUri : String) (checkCount : Nat)
    (input : TickInput) (h : reportsOtherPlaying trackUri input = true) :
    monitorTrackEndTick trackUri checkCount input = { restores := false, stop := true } := by
  cases input with
  | raise => simp [reportsOtherPlaying] at h
  | poll st =>
      cases st with
      | none => simp [reportsOtherPlaying] at h
      | some cs =>
          simp only [reportsOtherPlaying, Bool.and_eq_true] at h
          obtain ⟨hplay, hitem⟩ := h
          cases hit : cs.item with
          | none => rw [hit] at hitem; simp at hitem
          | some it =>
              rw [hit] at hitem
              have hitem2 : (it.uri != "" && it.uri != trackUri) = true := hitem
              simp only [Bool.and_eq_true, bne_iff_ne, ne_eq] at hitem2
              unfold monitorTrackEndTick
              split
              · rfl
              · simp [hplay, hit, hitem2.1, hitem2.2]

/-- Same fact for the `monitorPlaybackDuration` body: a different track at
the poll abandons the loop, before or at the cap, without restoring. -/
theorem monitorPlaybackDurationTick_of_other_playing (trackUri : String)
    (restorePlayback savedSome : Bool) (targetMs : Nat) (t : DurTick)
    (h : reportsOtherPlaying trackUri t.input = true) :
    monitorPlaybackDurationTick trackUri restorePlayback savedSome targetMs t =
      { pauses := false, restores := false, stop := true } := by
  obtain ⟨elapsedMs, pauseOk, input⟩ := t
  cases input with
  | raise => simp [reportsOtherPlaying] at h
  | poll st =>
      cases st with
      | none => simp [reportsOtherPlaying] at h
      | some cs =>
          simp only [reportsOtherPlaying, Bool.and_eq_true] at h
          obtain ⟨hplay, hitem⟩ := h
          cases hit : cs.item with
          | none => rw [hit] at hitem; simp at hitem
          | some it =>
              rw [hit] at hitem
              have hitem2 : (it.uri != "" && it.uri != trackUri) = true := hitem
              simp only [Bool.and_eq_true, bne_iff_ne, ne_eq] at hitem2
              unfold monitorPlaybackDurationTick
              dsimp only
              split <;> simp [hit, hitem2.2]

/-- The fire-and-forget loop body never restores. -/
theorem monitorForCompletionTick_restores_false (trackUri : String) (checkCount : Nat)
    (input : TickInput) :
    (monitorForCompletionTick trackUri checkCount input).restores = false := by
  unfold monitorForCompletionTick
  split
  · rfl
  · cases input with
    | raise => rfl
    | poll st =>
        cases st with
        | none => rfl
        | some cs =>
            cases hp : cs.is_playing with
            | false => simp [hp]
            | true =>
                simp only [hp, Bool.not_true, if_neg (by simp : ¬ (false = true))]
                cases cs.item with
                | none => rfl
                | some it => cases he : (it.uri == trackUri) <;> simp [he]

/-- In `monitorTrackEnd`, from the index of a playing-different-track poll
onwards, no iteration restores. -/
theorem monitorTrackEndRun_drop_no_restore (trackUri : String) :
    ∀ (trace : List TickInput) (checkCount k : Nat) (hk : k < trace.length),
    reportsOtherPlaying trackUri (trace.get ⟨k, hk⟩) = true →
    ∀ r ∈ (monitorTrackEndRun trackUri checkCount trace).drop k, r.restores = false := by
  intro trace
  induction trace with
  | nil => intro c k hk; exact absurd hk (by simp)
  | cons input rest ih =>
      intro c k hk hrep r hr
      cases k with
      | zero =>
          have hrep0 : reportsOtherPlaying trackUri input = true := hrep
          have htick := monitorTrackEndTick_of_other_playing trackUri (c + 1) input hrep0
          have hrun : monitorTrackEndRun trackUri c (input :: rest) =
              [{ restores := false, stop := true }] := by
            simp [monitorTrackEndRun, htick]
          rw [hrun] at hr
          simp at hr
          rw [hr]
      | succ k2 =>
          have hk2 : k2 < rest.length := Nat.lt_of_succ_lt_succ hk
          have hrep2 : reportsOtherPlaying trackUri (rest.get ⟨k2, hk2⟩) = true := hrep
          by_cases hstop : (monitorTrackEndTick trackUri (c + 1) input).stop = true
          · have hrun : monitorTrackEndRun trackUri c (input :: rest) =
                [monitorTrackEndTick trackUri (c + 1) input] := by
              simp [monitorTrackEndRun, hstop]
            rw [hrun] at hr
            simp at hr
          · have hrun : monitorTrackEndRun trackUri c (input :: rest) =
                monitorTrackEndTick trackUri (c + 1) input ::
                  monitorTrackEndRun trackUri (c + 1) rest := by
              simp [monitorTrackEndRun, hstop]
            rw [hrun, List.drop_succ_cons] at hr
            exact ih (c + 1) k2 hk2 hrep2 r hr

/-- In `monitorPlaybackDuration`, from the index of a
playing-different-track poll onwards, no iteration restores. -/
theorem monitorPlaybackDurationRun_drop_no_restore (trackUri : String)
    (restorePlayback savedSome : Bool) (targetMs : Nat) :
    ∀ (trace : List DurTick) (k : Nat) (hk : k < trace.length),
    reportsOtherPlaying trackUri (trace.get ⟨k, hk⟩).input = true →
    ∀ r ∈ (monitorPlaybackDurationRun trackUri restorePlayback savedSome targetMs trace).drop k,
      r.restores = false := by
  intro trace
  induction trace with
  | nil => intro k hk; exact absurd hk (by simp)
  | cons t rest ih =>
      intro k hk hrep r hr
      cases k with
      | zero =>
          have hrep0 : reportsOtherPlaying trackUri t.input = true := hrep
          have htick := monitorPlaybackDurationTick_of_other_playing trackUri
            restorePlayback savedSome targetMs t hrep0
          have hrun : monitorPlaybackDurationRun trackUri restorePlayback savedSome targetMs
              (t :: rest) = [{ pauses := false, restores := false, stop := true }] := by
            simp [monitorPlaybackDurationRun, htick]
          rw [hrun] at hr
          simp at hr
          rw [hr]
      | succ k2 =>
          have hk2 : k2 < rest.length := Nat.lt_of_succ_lt_succ hk
          have hrep2 : reportsOtherPlaying trackUri (rest.get ⟨k2, hk2⟩).input = true := hrep
          by_cases hstop : (monitorPlaybackDurationTick trackUri restorePlayback savedSome
              targetMs t).stop = true
          · have hrun : monitorPlaybackDurationRun trackUri restorePlayback savedSome targetMs
                (t :: rest) =
                [monitorPlaybackDurationTick trackUri restorePlayback savedSome targetMs t] := by
              simp [monitorPlaybackDurationRun, hstop]
            rw [hrun] at hr
            simp at hr
          · have hrun : monitorPlaybackDurationRun trackUri restorePlayback savedSome targetMs
                (t :: rest) =
                monitorPlaybackDurationTick trackUri restorePlayback savedSome targetMs t ::
                  monitorPlaybackDurationRun trackUri restorePlayback savedSome targetMs rest := by
              simp [monitorPlaybackDurationRun, hstop]
            rw [hrun, List.drop_succ_cons] at hr
            exact ih k2 hk2 hrep2 r hr

/-- `monitorForCompletion` never restores. -/
theorem monitorForCompletionRun_no_restore (trackUri : String) :
    ∀ (trace : List TickInput) (checkCount : Nat),
    ∀ r ∈ monitorForCompletionRun trackUri checkCount trace, r.restores = false := by
  intro trace
  induction trace with
  | nil => intro c r hr; simp [monitorForCompletionRun] at hr
  | cons input rest ih =>
      intro c r hr
      simp only [monitorForCompletionRun] at hr
      rcases List.mem_cons.mp hr with h | h
      · rw [h]; exact monitorForCompletionTick_restores_false trackUri (c + 1) input
      · by_cases hstop : (monitorForCompletionTick trackUri (c + 1) input).stop = true
        · rw [if_pos hstop] at h; simp at h
        · rw [if_neg hstop] at h; exact ih (c + 1) r h

/-- The clamp applied by `SpotifyAPI.setVolume` always lands in `[0, 100]`. -/
theorem setVolume_percent_bounds (v : Int) :
    0 ≤ setVolume_percent v ∧ setVolume_percent v ≤ 100 :=
  ⟨le_min (by norm_num) (le_max_left 0 v), min_le_left _ _⟩

/-- Any play command produced by `restorePlayCommand` is a `play`. -/
theorem restorePlayCommand_shape (prevState : PlaybackState) (pc : Command)
    (h : restorePlayCommand prevState = some pc) : ∃ b, pc = Command.play b := by
  obtain ⟨isp, item, prog, ctx, dev⟩ := prevState
  cases ctx with
  | none =>
      cases item with
      | none => simp [restorePlayCommand, restoreItemPlay] at h
      | some it =>
          simp only [restorePlayCommand, restoreItemPlay] at h
          split at h
          · exact ⟨_, (Option.some.inj h).symm⟩
          · simp at h
  | some c =>
      simp only [restorePlayCommand] at h
      split at h
      · exact ⟨_, (Option.some.inj h).symm⟩
      · cases item with
        | none => simp [restoreItemPlay] at h
        | some it =>
            simp only [restoreItemPlay] at h
            split at h
            · exact ⟨_, (Option.some.inj h).symm⟩
            · simp at h

/-- Any volume command produced by `restoreVolumeCommand` carries a clamped
percentage. -/
theorem restoreVolumeCommand_shape (prevState : PlaybackState) (c : Command)
    (h : restoreVolumeCommand prevState = some c) :
    ∃ v, c = Command.setVolume (setVolume_percent v) := by
  obtain ⟨isp, item, prog, ctx, dev⟩ := prevState
  cases dev with
  | none => simp [restoreVolumeCommand] at h
  | some d =>
      obtain ⟨vp⟩ := d
      cases vp with
      | none => simp [restoreVolumeCommand] at h
      | some v =>
          simp only [restoreVolumeCommand] at h
          exact ⟨v, (Option.some.inj h).symm⟩

/-- `playCommands` distributes over append. -/
theorem playCommands_append (l1 l2 : List Command) :
    playCommands (l1 ++ l2) = playCommands l1 ++ playCommands l2 := by
  induction l1 with
  | nil => rfl
  | cons c rest ih => cases c <;> simp [playCommands, ih]

/-- A tick leaves a store whose schedules are all triggered unchanged. -/
theorem checkSchedules_of_all_triggered (env : ApiEnv) (today : String) (now : ClockTime)
    (schedules : List Schedule) (h : ∀ s ∈ schedules, s.triggered = true) :
    checkSchedules env today now schedules = schedules := by
  induction schedules with
  | nil => rfl
  | cons s rest ih =>
      have hs : s.triggered = true := h s (by simp)
      have hrest : ∀ x ∈ rest, x.triggered = true := fun x hx => h x (by simp [hx])
      have hfire : shouldFire s now = false := by simp [shouldFire, hs]
      simpa [checkSchedules, hfire] using ih hrest

/-- Case analysis of the monitoring-strategy selection. -/
theorem selectMonitor_cases (s : Schedule) (saved : Option PlaybackState) :
    (selectMonitor s saved = MonitorChoice.durationCapped ↔
       (∃ p t, s.playbackDuration = some p ∧ s.trackDuration = some t ∧ 0 < p ∧ p < t)) ∧
    (selectMonitor s saved = MonitorChoice.trackEnd ↔
       (¬ (∃ p t, s.playbackDuration = some p ∧ s.trackDuration = some t ∧ 0 < p ∧ p < t) ∧
        s.restorePlayback = true ∧ saved.isSome = true)) ∧
    (selectMonitor s saved = MonitorChoice.completion ↔
       (¬ (∃ p t, s.playbackDuration = some p ∧ s.trackDuration = some t ∧ 0 < p ∧ p < t) ∧
        ¬ (s.restorePlayback = true ∧ saved.isSome = true))) := by
  unfold selectMonitor
  cases hcap : durationCapApplies s with
  | true =>
      have hprop := (durationCapApplies_iff s).mp hcap
      refine ⟨iff_of_true (by simp) hprop, iff_of_false (by simp) ?_,
        iff_of_false (by simp) ?_⟩
      · rintro ⟨hn, _⟩; exact hn hprop
      · rintro ⟨hn, _⟩; exact hn hprop
  | false =>
      have hnp : ¬ (∃ p t, s.playbackDuration = some p ∧ s.trackDuration = some t ∧
          0 < p ∧ p < t) := by
        intro hpp
        have h2 := (durationCapApplies_iff s).mpr hpp
        rw [h2] at hcap
        exact Bool.noConfusion hcap
      cases hrs : s.restorePlayback with
      | false =>
          refine ⟨iff_of_false (by simp) hnp, iff_of_false (by simp) ?_,
            iff_of_true (by simp) ⟨hnp, ?_⟩⟩
          · rintro ⟨_, h2, _⟩; exact Bool.noConfusion h2
          · rintro ⟨h2, _⟩; exact Bool.noConfusion h2
      | true =>
          cases hsv : saved.isSome with
          | false =>
              refine ⟨iff_of_false (by simp) hnp, iff_of_false (by simp) ?_,
                iff_of_true (by simp) ⟨hnp, ?_⟩⟩
              · rintro ⟨_, _, h3⟩; exact Bool.noConfusion h3
              · rintro ⟨_, h3⟩; exact Bool.noConfusion h3
          | true =>
              refine ⟨iff_of_false (by simp) hnp,
                iff_of_true (by simp) ⟨hnp, rfl, rfl⟩,
                iff_of_false (by simp) ?_⟩
              rintro ⟨_, h2⟩
              exact h2 ⟨rfl, rfl⟩

/-! ## Claim theorems -/

/-- C1: a clock tick fires a schedule exactly when it is enabled, not yet
triggered, its time string equals the current padded hour:minute, and the
current second-within-minute is strictly below 2 — so in particular a
disabled schedule is never fired at any wall-clock instant. -/
theorem checkSchedules_fires_iff (schedules : List Schedule) (now : ClockTime)
    (s : Schedule) :
    s ∈ firedOnTick schedules now ↔
      s ∈ schedules ∧ s.enabled = true ∧ s.triggered = false ∧
        s.time = currentTimeString now ∧ now.seconds < 2 := by
  simp [firedOnTick, List.mem_filter, shouldFire, Bool.and_eq_true, beq_iff_eq,
    Bool.not_eq_true', decide_eq_true_eq, and_assoc]

/-- C2: when the `setVolume` or `play` command of a fire fails, the
schedule record is completely unchanged (so `triggered` and
`lastTriggeredDate` keep their old values), the active-trigger slot is
cleared to `none`, exactly one error notification is emitted, and the
store is not saved. -/
theorem triggerSchedule_failure_unchanged (env : ApiEnv) (today : String) (s : Schedule)
    (h : env.setVolumeOk = false ∨ env.playOk = false) :
    (triggerSchedule env today s).schedule = s ∧
    (triggerSchedule env today s).active = none ∧
    (triggerSchedule env today s).notifications = [Notification.triggerError] ∧
    (triggerSchedule env today s).storeSaved = false := by
  rcases h with h | h
  · simp [triggerSchedule, h]
  · cases hv : env.setVolumeOk <;> simp [triggerSchedule, h, hv]

theorem triggerSchedule_failure_unchanged_witness :
    (triggerSchedule envPlayFails "Mon Jan 01 2024" baseSchedule).schedule = baseSchedule ∧
    (triggerSchedule envPlayFails "Mon Jan 01 2024" baseSchedule).active = none :=
  ⟨(triggerSchedule_failure_unchanged envPlayFails "Mon Jan 01 2024" baseSchedule
      (Or.inr rfl)).1,
   (triggerSchedule_failure_unchanged envPlayFails "Mon Jan 01 2024" baseSchedule
      (Or.inr rfl)).2.1⟩

/-- C4 (evidence of the divergence): the clock ticks never reset a
`triggered` flag — a store whose schedules have all fired stays exactly as
it is across any sequence of ticks, whatever dates and times they carry,
so no reset happens at a day boundary while the process runs.  The only
reset in the code is the one `loadSchedules` applies at startup, captured
by the second conjunct. -/
theorem runTicks_never_resets_triggered :
    (∀ (ticks : List (ApiEnv × String × ClockTime)) (schedules : List Schedule),
        (∀ s ∈ schedules, s.triggered = true) → runTicks ticks schedules = schedules) ∧
    (∀ (today : String) (s : Schedule), s.«repeat» = true →
        s.lastTriggeredDate ≠ some today → (loadResetOne today s).triggered = false) := by
  constructor
  · intro ticks
    induction ticks with
    | nil => intro schedules _; rfl
    | cons tick rest ih =>
        intro schedules h
        obtain ⟨env, today, now⟩ := tick
        have hstep := checkSchedules_of_all_triggered env today now schedules h
        simp only [runTicks, hstep]
        exact ih schedules h
  · intro today s hrep hdate
    simp [loadResetOne, hrep, hdate]

theorem runTicks_never_resets_triggered_witness :
    runTicks [(envAllOk, "Tue Jan 02 2024", { hours := 7, minutes := 0, seconds := 0 })]
      [triggeredYesterday] = [triggeredYesterday] ∧
    (loadResetOne "Tue Jan 02 2024" triggeredYesterday).triggered = false :=
  ⟨runTicks_never_resets_triggered.1
      [(envAllOk, "Tue Jan 02 2024", { hours := 7, minutes := 0, seconds := 0 })]
      [triggeredYesterday] (by decide),
   runTicks_never_resets_triggered.2 "Tue Jan 02 2024" triggeredYesterday rfl (by decide)⟩

/-- C7 (amended): `addSchedule` followed by `listSchedules` yields a store
containing the new entry with generated id, `triggered=false`,
`enabled=true`; truthy supplied values are kept unchanged, while absent or
falsy fields take the defaults (`volume=50` when absent or `0`, the
placeholder names when absent or empty, `restorePlayback=false` when
absent, durations `null` when absent or `0`), and `repeat` is true unless
supplied as literal `false`. -/
theorem addSchedule_roundTrip (now : Nat) (input : ScheduleInput)
    (schedules : List Schedule) :
    newScheduleFrom now input ∈ getSchedules (addSchedule now input schedules).1 ∧
    (addSchedule now input schedules).2 = newScheduleFrom now input ∧
    (newScheduleFrom now input).id = toString now ∧
    (newScheduleFrom now input).triggered = false ∧
    (newScheduleFrom now input).enabled = true ∧
    (newScheduleFrom now input).time = input.time ∧
    (newScheduleFrom now input).trackUri = input.trackUri ∧
    (∀ v, input.volume = some v → v ≠ 0 → (newScheduleFrom now input).volume = v) ∧
    ((input.volume = none ∨ input.volume = some 0) →
        (newScheduleFrom now input).volume = 50) ∧
    (∀ n, input.trackName = some n → n ≠ "" → (newScheduleFrom now input).trackName = n) ∧
    ((input.trackName = none ∨ input.trackName = some "") →
        (newScheduleFrom now input).trackName = "Unknown Track") ∧
    (∀ n, input.artistName = some n → n ≠ "" →
        (newScheduleFrom now input).artistName = n) ∧
    ((input.artistName = none ∨ input.artistName = some "") →
        (newScheduleFrom now input).artistName = "Unknown Artist") ∧
    (∀ b, input.restorePlayback = some b →
        (newScheduleFrom now input).restorePlayback = b) ∧
    (input.restorePlayback = none → (newScheduleFrom now input).restorePlayback = false) ∧
    ((newScheduleFrom now input).«repeat» = (input.«repeat» != some false)) ∧
    (∀ d, input.playbackDuration = some d → d ≠ 0 →
        (newScheduleFrom now input).playbackDuration = some d) ∧
    ((input.playbackDuration = none ∨ input.playbackDuration = some 0) →
        (newScheduleFrom now input).playbackDuration = none) ∧
    (∀ d, input.trackDuration = some d → d ≠ 0 →
        (newScheduleFrom now input).trackDuration = some d) ∧
    ((input.trackDuration = none ∨ input.trackDuration = some 0) →
        (newScheduleFrom now input).trackDuration = none) := by
  refine ⟨by simp [addSchedule, getSchedules], rfl, rfl, rfl, rfl, rfl, rfl,
    ?_, ?_, ?_, ?_, ?_, ?_, ?_, ?_, rfl, ?_, ?_, ?_, ?_⟩
  · intro v hv hne; simp [newScheduleFrom, jsOrInt, hv, hne]
  · rintro (h | h) <;> simp [newScheduleFrom, jsOrInt, h]
  · intro n hn hne; simp [newScheduleFrom, jsOrString, hn, hne]
  · rintro (h | h) <;> simp [newScheduleFrom, jsOrString, h]
  · intro n hn hne; simp [newScheduleFrom, jsOrString, hn, hne]
  · rintro (h | h) <;> simp [newScheduleFrom, jsOrString, h]
  · intro b hb; simp [newScheduleFrom, jsOrFalse, hb]
  · intro hb; simp [newScheduleFrom, jsOrFalse, hb]
  · intro d hd hne; simp [newScheduleFrom, jsOrNull, hd, hne]
  · rintro (h | h) <;> simp [newScheduleFrom, jsOrNull, h]
  · intro d hd hne; simp [newScheduleFrom, jsOrNull, hd, hne]
  · rintro (h | h) <;> simp [newScheduleFrom, jsOrNull, h]

theorem addSchedule_roundTrip_witness :
    newScheduleFrom 7 zeroVolumeInput ∈ getSchedules (addSchedule 7 zeroVolumeInput []).1 ∧
    (newScheduleFrom 7 zeroVolumeInput).volume = 50 := by
  obtain ⟨h1, _, _, _, _, _, _, _, h9, _⟩ := addSchedule_roundTrip 7 zeroVolumeInput []
  exact ⟨h1, h9 (Or.inr rfl)⟩

/-- C7 counterexample: an input that supplies the volume `0` does not keep
its supplied value — the stored entry carries `50`, so the round trip does
not preserve every supplied field value. -/
theorem addSchedule_claim_counterexample :
    zeroVolumeInput.volume = some 0 ∧
    (newScheduleFrom 7 zeroVolumeInput).volume = 50 ∧ (50 : Int) ≠ 0 :=
  ⟨rfl, rfl, by decide⟩

/-- C9 (amended): the store itself does not clamp, but every `setVolume`
command that the trigger path or the restore path sends to the remote
carries the clamped percentage `min 100 (max 0 v)`, which always lies in
`[0, 100]`. -/
theorem setVolume_commands_clamped :
    (∀ v : Int, 0 ≤ setVolume_percent v ∧ setVolume_percent v ≤ 100) ∧
    (∀ (env : ApiEnv) (today : String) (s : Schedule) (p : Int),
        Command.setVolume p ∈ (triggerSchedule env today s).commands →
        0 ≤ p ∧ p ≤ 100) ∧
    (∀ (env : ApiEnv) (prevState : PlaybackState) (p : Int),
        Command.setVolume p ∈ (restorePreviousPlayback env prevState).commands →
        0 ≤ p ∧ p ≤ 100) := by
  refine ⟨setVolume_percent_bounds, ?_, ?_⟩
  · intro env today s p hmem
    have hclamp : p = setVolume_percent s.volume := by
      cases hv : env.setVolumeOk <;> cases hp : env.playOk <;>
        simp [triggerSchedule, hv, hp] at hmem <;> exact hmem
    rw [hclamp]
    exact setVolume_percent_bounds s.volume
  · intro env prevState p hmem
    unfold restorePreviousPlayback at hmem
    rcases hvc : restoreVolumeCommand prevState with _ | c
    · rw [hvc] at hmem
      rcases hpc : restorePlayCommand prevState with _ | pc
      · rw [hpc] at hmem; simp at hmem
      · rw [hpc] at hmem
        obtain ⟨b, rfl⟩ := restorePlayCommand_shape prevState pc hpc
        cases hok : env.playOk <;> rw [hok] at hmem <;> simp at hmem
    · rw [hvc] at hmem
      obtain ⟨v, rfl⟩ := restoreVolumeCommand_shape prevState c hvc
      cases hsv : env.setVolumeOk <;> rw [hsv] at hmem
      · simp at hmem
        rw [hmem]
        exact setVolume_percent_bounds v
      · rcases hpc : restorePlayCommand prevState with _ | pc
        · rw [hpc] at hmem
          simp at hmem
          rw [hmem]
          exact setVolume_percent_bounds v
        · rw [hpc] at hmem
          obtain ⟨b, rfl⟩ := restorePlayCommand_shape prevState pc hpc
          cases hok : env.playOk <;> rw [hok] at hmem <;> simp at hmem <;>
            (rw [hmem]; exact setVolume_percent_bounds v)

theorem setVolume_commands_clamped_witness :
    0 ≤ setVolume_percent 150 ∧ setVolume_percent 150 ≤ 100 :=
  setVolume_commands_clamped.2.1 envAllOk "Mon Jan 01 2024" schedule150
    (setVolume_percent 150) (by decide)

/-- C9 counterexample: `addSchedule` with volume `150` stores `150`
unclamped, violating the claimed store invariant `0 ≤ volume ≤ 100`. -/
theorem volume_invariant_counterexample :
    (addSchedule 0 volume150Input []).1.map Schedule.volume = [150] ∧
    ¬ ((150 : Int) ≤ 100) :=
  ⟨rfl, by decide⟩

/-- C10: `triggerNow` on a store without the id changes nothing; on a
store containing the id it clears the `triggered` flag of that record and runs
the full fire sequence on it (whatever its `enabled`, `triggered` or
`time` were); and a successful fire leaves `triggered=true` and
`lastTriggeredDate=today` after the full pause/setVolume/play sequence, so
the schedule can no longer pass the clock guard at any instant of the same
day. -/
theorem triggerNow_spec (env : ApiEnv) (today : String) (scheduleId : String) :
    (∀ schedules : List Schedule, (∀ s ∈ schedules, s.id ≠ scheduleId) →
        triggerNowStore env today scheduleId schedules = (schedules, none)) ∧
    (∀ (pre : List Schedule) (s : Schedule) (rest : List Schedule),
        (∀ x ∈ pre, x.id ≠ scheduleId) → s.id = scheduleId →
        triggerNowStore env today scheduleId (pre ++ s :: rest) =
          (pre ++ (triggerSchedule env today { s with triggered := false }).schedule :: rest,
           some (triggerSchedule env today { s with triggered := false }))) ∧
    (∀ s : Schedule, env.setVolumeOk = true → env.playOk = true →
        (triggerSchedule env today { s with triggered := false }).schedule.triggered = true ∧
        (triggerSchedule env today { s with triggered := false }).schedule.lastTriggeredDate
          = some today ∧
        (triggerSchedule env today { s with triggered := false }).commands =
          [Command.pause, Command.setVolume (setVolume_percent s.volume),
           Command.play (play_body (triggerPlayOptions s.trackUri))] ∧
        (∀ now : ClockTime,
          shouldFire (triggerSchedule env today { s with triggered := false }).schedule now
            = false)) := by
  refine ⟨?_, ?_, ?_⟩
  · intro schedules
    induction schedules with
    | nil => intro h; rfl
    | cons s rest ih =>
        intro h
        have hs : s.id ≠ scheduleId := h s (by simp)
        have hrest := ih (fun x hx => h x (by simp [hx]))
        simp [triggerNowStore, hs, hrest]
  · intro pre s rest
    induction pre with
    | nil => intro hpre hs; simp [triggerNowStore, hs]
    | cons p pre2 ih =>
        intro hpre hs
        have hp : p.id ≠ scheduleId := hpre p (by simp)
        have h2 := ih (fun x hx => hpre x (by simp [hx])) hs
        simp [triggerNowStore, hp, h2]
  · intro s hv hp
    refine ⟨by simp [triggerSchedule, hv, hp], by simp [triggerSchedule, hv, hp],
      by simp [triggerSchedule, hv, hp], ?_⟩
    intro now
    simp [triggerSchedule, hv, hp, shouldFire]

theorem triggerNow_spec_witness :
    triggerNowStore envAllOk "Tue Jan 02 2024" "zz" [baseSchedule] = ([baseSchedule], none) ∧
    (triggerSchedule envAllOk "Tue Jan 02 2024"
        { scheduleId42 with triggered := false }).schedule.triggered = true :=
  ⟨(triggerNow_spec envAllOk "Tue Jan 02 2024" "zz").1 [baseSchedule] (by decide),
   ((triggerNow_spec envAllOk "Tue Jan 02 2024" "zz").2.2 scheduleId42 rfl rfl).1⟩

/-- C3 (amended): after a successful fire exactly one monitoring strategy
starts: duration-capped iff both durations are present, nonzero, and the
cap is strictly below the track duration; natural-end-with-restore iff no
cap applies, `restorePlayback` is set, and the pre-trigger snapshot was
actually captured (non-null); fire-and-forget otherwise. -/
theorem triggerSchedule_monitor_selection (env : ApiEnv) (today : String) (s : Schedule)
    (hv : env.setVolumeOk = true) (hp : env.playOk = true) :
    ((triggerSchedule env today s).monitor).isSome = true ∧
    ((triggerSchedule env today s).monitor = some MonitorChoice.durationCapped ↔
        (∃ p t, s.playbackDuration = some p ∧ s.trackDuration = some t ∧ 0 < p ∧ p < t)) ∧
    ((triggerSchedule env today s).monitor = some MonitorChoice.trackEnd ↔
        (¬ (∃ p t, s.playbackDuration = some p ∧ s.trackDuration = some t ∧ 0 < p ∧ p < t) ∧
         s.restorePlayback = true ∧ env.playbackState.isSome = true)) ∧
    ((triggerSchedule env today s).monitor = some MonitorChoice.completion ↔
        (¬ (∃ p t, s.playbackDuration = some p ∧ s.trackDuration = some t ∧ 0 < p ∧ p < t) ∧
         ¬ (s.restorePlayback = true ∧ env.playbackState.isSome = true))) := by
  refine ⟨by simp [triggerSchedule, hv, hp], ?_⟩
  have hmon : (triggerSchedule env today s).monitor =
      some (selectMonitor { s with triggered := true, lastTriggeredDate := some today }
        (if s.restorePlayback then env.playbackState else none)) := by
    simp [triggerSchedule, hv, hp]
  rw [hmon]
  have h := selectMonitor_cases { s with triggered := true, lastTriggeredDate := some today }
    (if s.restorePlayback then env.playbackState else none)
  have hsaved : ∀ (hb : s.restorePlayback = true),
      (if s.restorePlayback then env.playbackState else none) = env.playbackState :=
    fun hb => if_pos hb
  have hEquiv : (s.restorePlayback = true ∧
        (if s.restorePlayback then env.playbackState else none).isSome = true) ↔
      (s.restorePlayback = true ∧ env.playbackState.isSome = true) := by
    constructor
    · rintro ⟨a, b⟩
      rw [hsaved a] at b
      exact ⟨a, b⟩
    · rintro ⟨a, b⟩
      refine ⟨a, ?_⟩
      rw [hsaved a]
      exact b
  refine ⟨?_, ?_, ?_⟩
  · constructor
    · intro hx
      exact h.1.mp (Option.some.inj hx)
    · intro hy
      exact congrArg some (h.1.mpr hy)
  · constructor
    · intro hx
      obtain ⟨h1, hrest⟩ := h.2.1.mp (Option.some.inj hx)
      exact ⟨h1, hEquiv.mp hrest⟩
    · rintro ⟨h1, hrest⟩
      exact congrArg some (h.2.1.mpr ⟨h1, hEquiv.mpr hrest⟩)
  · constructor
    · intro hx
      obtain ⟨h1, h2⟩ := h.2.2.mp (Option.some.inj hx)
      exact ⟨h1, fun hc => h2 (hEquiv.mpr hc)⟩
    · rintro ⟨h1, h2⟩
      exact congrArg some (h.2.2.mpr ⟨h1, fun hc => h2 (hEquiv.mp hc)⟩)


theorem triggerSchedule_monitor_selection_witness :
    (triggerSchedule envWithState "Mon Jan 01 2024" scheduleRestoreNoSnapshot).monitor =
      some MonitorChoice.trackEnd :=
  ((triggerSchedule_monitor_selection envWithState "Mon Jan 01 2024"
      scheduleRestoreNoSnapshot rfl rfl).2.2.1).mpr
    ⟨by simp [scheduleRestoreNoSnapshot, baseSchedule], rfl, rfl⟩

/-- C3 counterexample: with `restorePlayback=true`, no duration cap and a
`null` snapshot, the code starts fire-and-forget, not natural-end; and
with `playbackDuration=0 < trackDuration=180` (both set) the code also
starts fire-and-forget, not duration-capped. -/
theorem monitor_selection_claim_counterexample :
    (triggerSchedule envAllOk "Mon Jan 01 2024" scheduleRestoreNoSnapshot).monitor =
      some MonitorChoice.completion ∧
    scheduleRestoreNoSnapshot.restorePlayback = true ∧
    durationCapApplies scheduleRestoreNoSnapshot = false ∧
    MonitorChoice.completion ≠ MonitorChoice.trackEnd ∧
    (triggerSchedule envAllOk "Mon Jan 01 2024" scheduleZeroDuration).monitor =
      some MonitorChoice.completion ∧
    scheduleZeroDuration.playbackDuration = some 0 ∧
    scheduleZeroDuration.trackDuration = some 180 ∧ (0 : Nat) < 180 ∧
    MonitorChoice.completion ≠ MonitorChoice.durationCapped := by
  decide

/-- C5 (amended): in every monitoring strategy, from the moment a poll
reports a playing track with a non-empty URI different from the scheduled
`trackUri`, the monitor never invokes the restore again (and the
fire-and-forget monitor never restores at all). -/
theorem monitors_no_restore_after_track_change (trackUri : String) :
    (∀ (trace : List TickInput) (checkCount k : Nat) (hk : k < trace.length),
        reportsOtherPlaying trackUri (trace.get ⟨k, hk⟩) = true →
        ∀ r ∈ (monitorTrackEndRun trackUri checkCount trace).drop k, r.restores = false) ∧
    (∀ (restorePlayback savedSome : Bool) (targetMs : Nat) (trace : List DurTick)
        (k : Nat) (hk : k < trace.length),
        reportsOtherPlaying trackUri (trace.get ⟨k, hk⟩).input = true →
        ∀ r ∈ (monitorPlaybackDurationRun trackUri restorePlayback savedSome targetMs
            trace).drop k, r.restores = false) ∧
    (∀ (trace : List TickInput) (checkCount : Nat),
        ∀ r ∈ monitorForCompletionRun trackUri checkCount trace, r.restores = false) :=
  ⟨monitorTrackEndRun_drop_no_restore trackUri,
   fun restorePlayback savedSome targetMs =>
     monitorPlaybackDurationRun_drop_no_restore trackUri restorePlayback savedSome targetMs,
   monitorForCompletionRun_no_restore trackUri⟩

theorem monitors_no_restore_after_track_change_witness :
    (((monitorTrackEndRun "t1" 0 [TickInput.poll (some otherPlayingState)]).drop 0).headD
        { restores := true, stop := true }).restores = false :=
  (monitors_no_restore_after_track_change "t1").1
    [TickInput.poll (some otherPlayingState)] 0 0 (by decide) (by decide)
    (((monitorTrackEndRun "t1" 0 [TickInput.poll (some otherPlayingState)]).drop 0).headD
        { restores := true, stop := true }) (by decide)

/-- C5 counterexample: `monitorTrackEnd` does restore in direct response
to a poll reporting a track other than the scheduled one — when that other
track is paused (the stopped-player branch runs first), and when it is
playing with an empty URI near its end (the empty URI is falsy, so the
track-change branch is skipped and the progress branch restores). -/
theorem monitor_restore_claim_counterexample :
    (monitorTrackEndRun "t1" 0 [TickInput.poll (some pausedOtherState)]).map MonTick.restores
      = [true] ∧
    pausedOtherState.item = some { uri := "t2", duration_ms := 180000 } ∧ "t2" ≠ "t1" ∧
    (monitorTrackEndRun "t1" 0
        [TickInput.poll (some emptyUriPlayingState)]).map MonTick.restores = [true] ∧
    emptyUriPlayingState.item = some { uri := "", duration_ms := 500 } ∧
    ("" : String) ≠ "t1" ∧ emptyUriPlayingState.is_playing = true := by
  decide

/-- C6: the restore issues exactly one play command carrying the
context URI of the snapshot and its progress position when the snapshot has a
truthy context; exactly one play command with the single track URI and the
position when it has only a truthy track; and no play command at all when
it has neither. -/
theorem restorePreviousPlayback_play_spec (env : ApiEnv) (prevState : PlaybackState)
    (hv : env.setVolumeOk = true) :
    (∀ c, prevState.context = some c → c.uri ≠ "" →
        playCommands (restorePreviousPlayback env prevState).commands =
          [{ context_uri := some c.uri, uris := none,
             position_ms := some (restorePositionMs prevState) }]) ∧
    (hasContextUri prevState = false → ∀ it, prevState.item = some it → it.uri ≠ "" →
        playCommands (restorePreviousPlayback env prevState).commands =
          [{ context_uri := none, uris := some [it.uri],
             position_ms := some (restorePositionMs prevState) }]) ∧
    (hasContextUri prevState = false → hasItemUri prevState = false →
        playCommands (restorePreviousPlayback env prevState).commands = []) := by
  have hcmds : (restorePreviousPlayback env prevState).commands =
      (restoreVolumeCommand prevState).toList ++ (restorePlayCommand prevState).toList := by
    unfold restorePreviousPlayback
    rcases restoreVolumeCommand prevState with _ | c <;>
      rcases restorePlayCommand prevState with _ | p <;>
        simp [hv] <;> split <;> rfl
  have hvol : playCommands (restoreVolumeCommand prevState).toList = [] := by
    rcases hvc : restoreVolumeCommand prevState with _ | c
    · rfl
    · obtain ⟨v, rfl⟩ := restoreVolumeCommand_shape prevState c hvc
      rfl
  refine ⟨?_, ?_, ?_⟩
  · intro c hc hne
    have hpc : restorePlayCommand prevState =
        some (Command.play (play_body (restoreContextOptions c.uri
          (restorePositionMs prevState)))) := by
      simp [restorePlayCommand, hc, hne]
    rw [hcmds, playCommands_append, hvol, hpc]
    simp [playCommands, play_body, restoreContextOptions, hne]
  · intro hnc it hit hne
    have hitem : restoreItemPlay prevState =
        some (Command.play (play_body (restoreTrackOptions it.uri
          (restorePositionMs prevState)))) := by
      simp [restoreItemPlay, hit, hne]
    have hpc : restorePlayCommand prevState =
        some (Command.play (play_body (restoreTrackOptions it.uri
          (restorePositionMs prevState)))) := by
      cases hc : prevState.context with
      | none => unfold restorePlayCommand; rw [hc]; exact hitem
      | some c =>
          unfold hasContextUri at hnc
          rw [hc] at hnc
          simp at hnc
          simp [restorePlayCommand, hc, hnc, hitem]
    rw [hcmds, playCommands_append, hvol, hpc]
    simp [playCommands, play_body, restoreTrackOptions]
  · intro hnc hni
    have hitem : restoreItemPlay prevState = none := by
      cases hit : prevState.item with
      | none => unfold restoreItemPlay; rw [hit]
      | some it =>
          unfold hasItemUri at hni
          rw [hit] at hni
          simp at hni
          simp [restoreItemPlay, hit, hni]
    have hpc : restorePlayCommand prevState = none := by
      cases hc : prevState.context with
      | none => unfold restorePlayCommand; rw [hc]; exact hitem
      | some c =>
          unfold hasContextUri at hnc
          rw [hc] at hnc
          simp at hnc
          simp [restorePlayCommand, hc, hnc, hitem]
    rw [hcmds, playCommands_append, hvol, hpc]
    rfl

theorem restorePreviousPlayback_play_spec_witness :
    playCommands (restorePreviousPlayback envAllOk contextSnapshot).commands =
      [{ context_uri := some "ctx1", uris := none, position_ms := some 1234 }] :=
  (restorePreviousPlayback_play_spec envAllOk contextSnapshot rfl).1
    { uri := "ctx1" } rfl (by decide)

/-- C8 (amended): an exception raised inside a poll iteration makes
`monitorPlaybackDuration` and `monitorForCompletion` clear their interval
and end the loop, while `monitorTrackEnd` logs it and keeps polling
(subject to its safety bound). -/
theorem monitor_error_handling :
    (∀ (trackUri : String) (checkCount : Nat) (trace : List TickInput),
        checkCount + 1 ≤ MAX_TRACK_MONITOR_SECONDS →
        monitorTrackEndRun trackUri checkCount (TickInput.raise :: trace) =
          { restores := false, stop := false } ::
            monitorTrackEndRun trackUri (checkCount + 1) trace) ∧
    (∀ (trackUri : String) (restorePlayback savedSome : Bool) (targetMs : Nat)
        (t : DurTick) (trace : List DurTick), t.input = TickInput.raise →
        monitorPlaybackDurationRun trackUri restorePlayback savedSome targetMs (t :: trace) =
          [{ pauses := false, restores := false, stop := true }]) ∧
    (∀ (trackUri : String) (checkCount : Nat) (trace : List TickInput),
        monitorForCompletionRun trackUri checkCount (TickInput.raise :: trace) =
          [{ restores := false, stop := true }]) := by
  refine ⟨?_, ?_, ?_⟩
  · intro trackUri checkCount trace h
    have htick : monitorTrackEndTick trackUri (checkCount + 1) TickInput.raise =
        { restores := false, stop := false } := by
      unfold monitorTrackEndTick
      rw [if_neg (by omega)]
    simp [monitorTrackEndRun, htick]
  · intro trackUri restorePlayback savedSome targetMs t trace ht
    have htick : monitorPlaybackDurationTick trackUri restorePlayback savedSome targetMs t =
        { pauses := false, restores := false, stop := true } := by
      unfold monitorPlaybackDurationTick
      rw [ht]
    simp [monitorPlaybackDurationRun, htick]
  · intro trackUri checkCount trace
    have htick : monitorForCompletionTick trackUri (checkCount + 1) TickInput.raise =
        { restores := false, stop := true } := by
      unfold monitorForCompletionTick
      split <;> rfl
    simp [monitorForCompletionRun, htick]

theorem monitor_error_handling_witness :
    monitorTrackEndRun "t1" 0 [TickInput.raise] =
      [{ restores := false, stop := false }] := by
  have h := monitor_error_handling.1 "t1" 0 [] (by decide)
  simpa [monitorTrackEndRun] using h

/-- C8 counterexample: an exception at the first tick ends
`monitorForCompletion` (only one iteration executes although another poll
follows, and that same poll would have let the loop continue), and
likewise ends `monitorPlaybackDuration`. -/
theorem monitor_error_claim_counterexample :
    (monitorForCompletionRun "t1" 0
        [TickInput.raise, TickInput.poll (some playingSchedState)]).length = 1 ∧
    (monitorForCompletionRun "t1" 0
        [TickInput.poll (some playingSchedState),
         TickInput.poll (some playingSchedState)]).length = 2 ∧
    (monitorPlaybackDurationRun "t1" true true 30000
        [{ elapsedMs := 1000, pauseOk := true, input := TickInput.raise },
         { elapsedMs := 2000, pauseOk := true,
           input := TickInput.poll (some playingSchedState) }]).length = 1 := by
  decide

end TimeKeepingSpotify
